import Mathlib

/-!
Verification development for the DuckCoding transparent-proxy core
(`src-tauri`).  Rust structures and functions are shallowly embedded as
Lean definitions: `f64` prices are modelled as exact rationals (`ℚ`),
`i64` token counts and millisecond timestamps as `Int`, `u16` ports as
`Nat`, fallible Rust paths as `Except String`, and the byte-oriented
Rust string operations as structurally recursive functions over
`List Char` (all routed strings are ASCII).  Stateful command handlers
are embedded as explicit state-passing functions over a record of the
collaborator stores they read and write.
-/

namespace DuckCoding

/-! ## String helpers

Executable counterparts of the Rust `str` operations used by the code
under verification.  They operate on `List Char` so that every witness
can be evaluated by `decide`. -/

/-- Rust `str::to_lowercase` restricted to ASCII input (every routed
path, header name and model id in the repository is ASCII). -/
def asciiLower (s : List Char) : List Char :=
  s.map Char.toLower

/-- Rust `str::contains(pat)`: does `pat` occur as a contiguous
substring of `hay`? -/
def hasSubstring (hay pat : List Char) : Bool :=
  pat.isPrefixOf hay ||
    match hay with
    | [] => false
    | _ :: t => hasSubstring t pat

/-- Rust `str::trim_end_matches('/')`: drop every trailing slash. -/
def trimEndSlashes (s : List Char) : List Char :=
  (s.reverse.dropWhile (fun c => c = '/')).reverse

/-! ## Pricing data model — `src-tauri/src/models/pricing.rs`

`custom_models` is a Rust `HashMap<String, ModelPrice>`; it is embedded
as an association list (`lookup` for keyed access, list order standing
for the map's iteration order). -/

/-- `ModelPrice` (models/pricing.rs). -/
structure ModelPrice where
  provider : String
  input_price_per_1m : ℚ
  output_price_per_1m : ℚ
  cache_write_price_per_1m : Option ℚ
  cache_read_price_per_1m : Option ℚ
  currency : String
  aliases : List String
  deriving Repr, DecidableEq

/-- `InheritedModel` (models/pricing.rs). -/
structure InheritedModel where
  model_name : String
  source_template_id : String
  multiplier : ℚ
  deriving Repr, DecidableEq

/-- `PricingTemplate` (models/pricing.rs); only the fields read by
`PricingManager::calculate_cost` / `resolve_model_price` are kept. -/
structure PricingTemplate where
  id : String
  inherited_models : List InheritedModel
  custom_models : List (String × ModelPrice)
  deriving Repr, DecidableEq

/-- The template directory (`PricingManager::get_template` reads one
JSON document per template id). -/
def TemplateStore : Type := String → Option PricingTemplate

/-- `PricingManager::get_template`: look the id up, `Err` when the
document does not exist. -/
def get_template (store : TemplateStore) (template_id : String) :
    Except String PricingTemplate :=
  match store template_id with
  | some t => .ok t
  | none => .error ("Template " ++ template_id ++ " not found")

/-- The `default_templates.json` map (tool id → default template id). -/
def DefaultTemplates : Type := String → Option String

/-- `PricingManager::get_default_template`. -/
def get_default_template (store : TemplateStore) (defaults : DefaultTemplates)
    (tool_id : String) : Except String PricingTemplate :=
  match defaults tool_id with
  | some tid => get_template store tid
  | none => .error ("No default template set for tool " ++ tool_id)

/-- Step 1 of `resolve_model_price`: direct key lookup in
`custom_models`. -/
def lookupCustom (cm : List (String × ModelPrice)) (model : String) :
    Option ModelPrice :=
  cm.lookup model

/-- Step 2 of `resolve_model_price`: first custom model whose alias
list contains the requested name. -/
def lookupAlias (cm : List (String × ModelPrice)) (model : String) :
    Option ModelPrice :=
  (cm.find? (fun p => p.2.aliases.contains model)).map (fun p => p.2)

/-- Price scaling applied to an inherited entry: every price field is
multiplied by the entry's multiplier (step 3 of
`resolve_model_price`). -/
def scalePrice (base : ModelPrice) (multiplier : ℚ) : ModelPrice :=
  { provider := base.provider
    input_price_per_1m := base.input_price_per_1m * multiplier
    output_price_per_1m := base.output_price_per_1m * multiplier
    cache_write_price_per_1m := base.cache_write_price_per_1m.map (fun p => p * multiplier)
    cache_read_price_per_1m := base.cache_read_price_per_1m.map (fun p => p * multiplier)
    currency := base.currency
    aliases := base.aliases }

/-- One step of the `inherited_models` walk: load the source template,
recursively resolve the inherited model name there (the `resolve`
argument), and if the requested model matches the entry's model name or
the resolved base price's alias list, return the multiplier-scaled
price.  Entries whose source template or base price fails to resolve
are skipped, exactly as the Rust `if let Ok(..)` chain does. -/
def tryInherited (store : TemplateStore)
    (resolve : PricingTemplate → String → Except String ModelPrice)
    (model : String) (inh : InheritedModel) : Option ModelPrice :=
  match get_template store inh.source_template_id with
  | .error _ => none
  | .ok source_template =>
    match resolve source_template inh.model_name with
    | .error _ => none
    | .ok base_price =>
      if inh.model_name = model || base_price.aliases.contains model then
        some (scalePrice base_price inh.multiplier)
      else
        none

/-- `PricingManager::resolve_model_price`.  The Rust function recurses
through the template store with no depth bound; the embedding indexes
the recursion by fuel, one unit per inheritance level, so that any
acyclic resolution is reproduced at sufficient fuel (behaviour on a
cyclic template chain is unspecified in the source). -/
def resolve_model_price (store : TemplateStore) :
    Nat → PricingTemplate → String → Except String ModelPrice
  | 0, template, model =>
    match lookupCustom template.custom_models model with
    | some price => .ok price
    | none =>
      match lookupAlias template.custom_models model with
      | some price => .ok price
      | none => .error "inheritance recursion depth exhausted"
  | fuel' + 1, template, model =>
    match lookupCustom template.custom_models model with
    | some price => .ok price
    | none =>
      match lookupAlias template.custom_models model with
      | some price => .ok price
      | none =>
        match template.inherited_models.findSome?
            (tryInherited store (fun t m => resolve_model_price store fuel' t m) model) with
        | some price => .ok price
        | none =>
          .error ("Model " ++ model ++ " not found in template " ++ template.id)

/-- `CostBreakdown` (services/pricing/manager.rs). -/
structure CostBreakdown where
  input_price : ℚ
  output_price : ℚ
  cache_write_price : ℚ
  cache_read_price : ℚ
  total_cost : ℚ
  template_id : String
  deriving Repr, DecidableEq

/-- `PricingManager::calculate_cost` (services/pricing/manager.rs):
fetch the template (falling back to the `claude-code` default), resolve
the model price, and charge each token class at its per-1,000,000
price, a missing cache price counting as zero. -/
def calculate_cost (store : TemplateStore) (defaults : DefaultTemplates)
    (fuel : Nat) (template_id : Option String) (model : String)
    (input_tokens output_tokens cache_creation_tokens cache_read_tokens : Int) :
    Except String CostBreakdown :=
  match (match template_id with
         | some id => get_template store id
         | none => get_default_template store defaults "claude-code") with
  | .error e => .error e
  | .ok template =>
    match resolve_model_price store fuel template model with
    | .error e => .error e
    | .ok model_price =>
      let input_price : ℚ := input_tokens * model_price.input_price_per_1m / 1000000
      let output_price : ℚ := output_tokens * model_price.output_price_per_1m / 1000000
      let cache_write_price : ℚ :=
        cache_creation_tokens * (model_price.cache_write_price_per_1m.getD 0) / 1000000
      let cache_read_price : ℚ :=
        cache_read_tokens * (model_price.cache_read_price_per_1m.getD 0) / 1000000
      let total_cost := input_price + output_price + cache_write_price + cache_read_price
      .ok { input_price := input_price
            output_price := output_price
            cache_write_price := cache_write_price
            cache_read_price := cache_read_price
            total_cost := total_cost
            template_id := template.id }

/-! ## Token extractor — `src-tauri/src/services/token_stats/extractor.rs` -/

/-- `MessageStartData`: the initial `message_start` stream event. -/
structure MessageStartData where
  model : String
  message_id : String
  input_tokens : Int
  output_tokens : Int
  cache_creation_tokens : Int
  cache_read_tokens : Int
  deriving Repr, DecidableEq

/-- `MessageDeltaData`: the terminal `message_delta` stream event. -/
structure MessageDeltaData where
  cache_creation_tokens : Int
  cache_read_tokens : Int
  output_tokens : Int
  deriving Repr, DecidableEq

/-- `ResponseTokenInfo`: the merged usage record. -/
structure ResponseTokenInfo where
  model : String
  message_id : String
  input_tokens : Int
  output_tokens : Int
  cache_creation_tokens : Int
  cache_read_tokens : Int
  deriving Repr, DecidableEq

/-- `ResponseTokenInfo::from_sse_data`: model, message id and input
tokens always come from `message_start`; output and cache counts come
from `message_delta` when present, otherwise from `message_start`. -/
def ResponseTokenInfo.from_sse_data (start : MessageStartData)
    (delta : Option MessageDeltaData) : ResponseTokenInfo :=
  let counts : Int × Int × Int :=
    match delta with
    | some d => (d.cache_creation_tokens, d.cache_read_tokens, d.output_tokens)
    | none => (start.cache_creation_tokens, start.cache_read_tokens, start.output_tokens)
  { model := start.model
    message_id := start.message_id
    input_tokens := start.input_tokens
    output_tokens := counts.2.2
    cache_creation_tokens := counts.1
    cache_read_tokens := counts.2.1 }

/-- `SseTokenData`: what one SSE chunk may contribute. -/
structure SseTokenData where
  message_start : Option MessageStartData
  message_delta : Option MessageDeltaData
  deriving Repr

/-- `TokenStatsManager::parse_sse_chunks`
(services/token_stats/manager.rs): fold over the chunks with the
tool's extractor (`extract` stands for the
`TokenExtractor::extract_from_sse_chunk` virtual call), keeping the
last `message_start` and the last `message_delta` seen; chunks the
extractor rejects or skips contribute nothing.  A stream with no
`message_start` is a hard extraction failure. -/
def parse_sse_chunks (extract : String → Except String (Option SseTokenData))
    (chunks : List String) : Except String ResponseTokenInfo :=
  let collected :=
    chunks.foldl
      (fun acc chunk =>
        match extract chunk with
        | .ok (some data) =>
          (match data.message_start with
           | some s => some s
           | none => acc.1,
           match data.message_delta with
           | some d => some d
           | none => acc.2)
        | _ => acc)
      ((none : Option MessageStartData), (none : Option MessageDeltaData))
  match collected.1 with
  | none => .error "Missing message_start in SSE stream"
  | some start => .ok (ResponseTokenInfo.from_sse_data start collected.2)

/-! ## Proxy start/stop saga — `src-tauri/src/commands/proxy_commands.rs`

The saga mutates two collaborator stores: the per-tool profile store
(`ProfileManager`: which named profile is active for a tool, and which
named profiles exist) and the persisted `proxy.json` store of
`ToolProxyConfig` (`ProxyConfigManager`).  Both are embedded as fields
of an explicit state record; `activate_profile` and `update_config`
are their pointwise updates.  The AMP native config documents
(`serde_json::Value`) are opaque to the saga and modelled as
strings. -/

/-- `ToolProxyConfig` (models/proxy_config.rs). -/
structure ToolProxyConfig where
  enabled : Bool
  port : Nat
  local_api_key : Option String
  real_api_key : Option String
  real_base_url : Option String
  real_profile_name : Option String
  allow_public : Bool
  session_endpoint_config_enabled : Bool
  auto_start : Bool
  original_active_profile : Option String
  original_amp_settings : Option String
  original_amp_secrets : Option String
  tavily_api_key : Option String
  deriving Repr, DecidableEq

/-- Joint state of the collaborator stores the saga touches. -/
structure SagaState where
  /-- `ProfileManager::get_active_profile_name` /
  `activate_profile`: tool id → active profile name. -/
  active_profile : String → Option String
  /-- `ProxyConfigManager::get_config` / `update_config`:
  tool id → stored proxy configuration. -/
  configs : String → Option ToolProxyConfig
  /-- Whether a named profile document exists for a tool
  (`get_claude_profile` / `get_codex_profile` / `get_gemini_profile`
  succeeding). -/
  profile_defined : String → String → Bool

/-- Outcomes of the external effects the start path performs, fixed per
attempt: whether the manager already runs an instance for the tool,
the AMP profile-selection check, the AMP native-config backup and
apply results, and the final `ProxyManager::start_proxy` launch. -/
structure StartEnv where
  is_running : Bool
  amp_selection_ok : Bool
  amp_backup_settings : Option String
  amp_backup_secrets : Option String
  amp_apply : Except String Unit
  launch : Except String Unit

/-- The internally managed proxy profile name: `dc_proxy_` followed
by the tool id with every `-` replaced by `_` (the Rust replace
pattern is the single character `-`). -/
def proxy_profile_name (tool_id : String) : String :=
  "dc_proxy_" ++ String.mk (tool_id.data.map (fun c => if c = '-' then '_' else c))

/-- `try_start_proxy_internal` (commands/proxy_commands.rs): validate
the stored config, back the active profile up into it, switch to the
managed proxy profile (AMP instead backs up and rewrites its native
config documents), then launch the listener.  Returns the Rust
function's result together with the collaborator state it leaves
behind. -/
def try_start_proxy_internal (env : StartEnv) (st : SagaState) (tool_id : String) :
    Except String (String × Nat) × SagaState :=
  match st.configs tool_id with
  | none => (.error ("工具 " ++ tool_id ++ " 的代理配置不存在"), st)
  | some tool_config =>
    if env.is_running then (.error (tool_id ++ " 代理已在运行"), st)
    else if !tool_config.enabled then (.error (tool_id ++ " 的透明代理未启用"), st)
    else if tool_config.local_api_key = none then
      (.error "透明代理保护密钥未设置", st)
    else if tool_id = "amp-code" then
      if !env.amp_selection_ok then
        (.error "AMP Code 未配置任何 Profile，请先在 Profile 管理页面选择至少一个工具的配置", st)
      else
        let cfg1 := { tool_config with
          original_amp_settings := env.amp_backup_settings
          original_amp_secrets := env.amp_backup_secrets }
        let st1 := { st with
          configs := fun t => if t = tool_id then some cfg1 else st.configs t }
        match env.amp_apply with
        | .error e => (.error ("应用 AMP Code 代理配置失败: " ++ e), st1)
        | .ok _ =>
          match env.launch with
          | .error e => (.error ("启动代理失败: " ++ e), st1)
          | .ok _ => (.ok (tool_id, tool_config.port), st1)
    else if tool_config.real_api_key = none ∨ tool_config.real_base_url = none then
      (.error "真实 API Key 或 Base URL 未设置", st)
    else
      let original_profile := st.active_profile tool_id
      let cfg1 := { tool_config with original_active_profile := original_profile }
      let st1 := { st with
        configs := fun t => if t = tool_id then some cfg1 else st.configs t }
      let ppn := proxy_profile_name tool_id
      let profile_exists :=
        if tool_id = "claude-code" ∨ tool_id = "codex" ∨ tool_id = "gemini-cli" then
          st.profile_defined tool_id ppn
        else false
      if !profile_exists then
        (.error ("内置 Profile 不存在，请先保存代理配置: " ++ ppn), st1)
      else
        let st2 := { st1 with
          active_profile := fun t => if t = tool_id then some ppn else st1.active_profile t }
        match env.launch with
        | .error e => (.error ("启动代理失败: " ++ e), st2)
        | .ok _ => (.ok (tool_id, tool_config.port), st2)

/-- `start_tool_proxy_internal` (commands/proxy_commands.rs): snapshot
the stored config and the active profile name, attempt the start, and
on failure restore the stored config and re-activate the snapshotted
profile (when one existed) before surfacing the original error. -/
def start_tool_proxy_internal (env : StartEnv) (st : SagaState) (tool_id : String) :
    Except String String × SagaState :=
  match st.configs tool_id with
  | none => (.error ("工具 " ++ tool_id ++ " 的代理配置不存在"), st)
  | some backup_config =>
    let backup_profile := st.active_profile tool_id
    match try_start_proxy_internal env st tool_id with
    | (.ok (tid, proxy_port), st1) =>
      (.ok ("✅ " ++ tid ++ " 透明代理已启动\n监听端口: " ++ toString proxy_port
            ++ "\n已切换到代理配置"), st1)
    | (.error e, st1) =>
      let st2 := { st1 with
        configs := fun t => if t = tool_id then some backup_config else st1.configs t }
      let st3 :=
        match backup_profile with
        | some name =>
          { st2 with
            active_profile := fun t => if t = tool_id then some name else st2.active_profile t }
        | none => st2
      (.error e, st3)

/-- Outcomes of the external effects the stop path performs:
`ProxyManager::stop_proxy` and, for AMP, the native-config restore. -/
structure StopEnv where
  stop_result : Except String Unit
  amp_restore : Except String Unit

/-- `stop_tool_proxy_internal` (commands/proxy_commands.rs): stop the
listener, then restore.  AMP restores its two native config documents
and clears their backup fields; every other tool re-activates the
backed-up `original_active_profile` and clears that field when the
backup is present, and deliberately changes nothing when it is not. -/
def stop_tool_proxy_internal (env : StopEnv) (st : SagaState) (tool_id : String) :
    Except String String × SagaState :=
  match st.configs tool_id with
  | none => (.error ("工具 " ++ tool_id ++ " 的代理配置不存在"), st)
  | some tool_config =>
    match env.stop_result with
    | .error e => (.error ("停止代理失败: " ++ e), st)
    | .ok _ =>
      if tool_id = "amp-code" then
        let cfg1 := { tool_config with
          original_amp_settings := none
          original_amp_secrets := none }
        match env.amp_restore with
        | .error e => (.error ("还原 AMP Code 配置失败: " ++ e), st)
        | .ok _ =>
          let st1 := { st with
            configs := fun t => if t = tool_id then some cfg1 else st.configs t }
          (.ok ("✅ " ++ tool_id ++ " 透明代理已停止\n已完整还原 AMP Code 配置"), st1)
      else
        match tool_config.original_active_profile with
        | some profile_name =>
          let cfg1 := { tool_config with original_active_profile := none }
          let st1 := { st with
            active_profile :=
              fun t => if t = tool_id then some profile_name else st.active_profile t }
          let st2 := { st1 with
            configs := fun t => if t = tool_id then some cfg1 else st1.configs t }
          (.ok ("✅ " ++ tool_id ++ " 透明代理已停止\n已还原到 Profile: " ++ profile_name),
           st2)
        | none =>
          (.ok ("✅ " ++ tool_id ++ " 透明代理已停止"), st)

/-! ## Loop guard and request gate —
`src-tauri/src/services/proxy/transparent_proxy.rs` and
`src-tauri/src/services/proxy/proxy_instance.rs` -/

/-- The four own-address forms `transparent_proxy.rs` guards against:
scheme (`http`/`https`) × loopback alias (`127.0.0.1`/`localhost`)
with the instance's own port. -/
def transparent_loop_check (target_url : String) (own_port : Nat) : Bool :=
  ("http://127.0.0.1:" ++ toString own_port).data.isPrefixOf target_url.data ||
  ("https://127.0.0.1:" ++ toString own_port).data.isPrefixOf target_url.data ||
  ("http://localhost:" ++ toString own_port).data.isPrefixOf target_url.data ||
  ("https://localhost:" ++ toString own_port).data.isPrefixOf target_url.data

/-- Target-URL construction in `transparent_proxy.rs::handle_request_inner`:
trim trailing slashes off the configured base URL, drop a leading `/v1`
from the path when the base already ends in `/v1`, append the query
string (already `?`-prefixed when present). -/
def transparent_target_url (base_url path query : String) : String :=
  let base := String.mk (trimEndSlashes base_url.data)
  let adjusted_path :=
    if "/v1".data.isSuffixOf base.data && "/v1".data.isPrefixOf path.data then
      String.mk (path.data.drop 3)
    else path
  base ++ adjusted_path ++ query

/-- How `transparent_proxy.rs` disposes of a request after building the
target URL: a terminal `PROXY_LOOP_DETECTED` 502 response, or an
upstream network call to the URL. -/
inductive TransparentOutcome where
  | proxyLoopDetected
  | upstream (target_url : String)
  deriving Repr, DecidableEq

/-- The dispatch decision of `transparent_proxy.rs::handle_request_inner`
once the URL is constructed: the loop guard runs before any network
call. -/
def transparent_dispatch (base_url path query : String) (own_port : Nat) :
    TransparentOutcome :=
  let target_url := transparent_target_url base_url path query
  if transparent_loop_check target_url own_port then .proxyLoopDetected
  else .upstream target_url

/-- Modelled from the spec: `loop_detector::is_proxy_loop`
(`services/proxy/utils/loop_detector.rs`, not part of the published
sources) checks the constructed target URL against the instance's own
bound loopback addresses — all four combinations of scheme and
hostname alias for the instance's own port. -/
def is_proxy_loop (target_url : String) (own_port : Nat) : Bool :=
  ("http://127.0.0.1:" ++ toString own_port).data.isPrefixOf target_url.data ||
  ("https://127.0.0.1:" ++ toString own_port).data.isPrefixOf target_url.data ||
  ("http://localhost:" ++ toString own_port).data.isPrefixOf target_url.data ||
  ("https://localhost:" ++ toString own_port).data.isPrefixOf target_url.data

/-- The request headers `proxy_instance.rs::handle_request_inner` reads
for the auth gate (`authorization` falling back to `x-api-key`, both as
optional strings). -/
structure RequestHeaders where
  authorization : Option String
  x_api_key : Option String
  deriving Repr, DecidableEq

/-- The presented-key normalization of `handle_request_inner`: drop a
`Bearer ` or (vendor-style) `x-api-key ` scheme word when present. -/
def stripAuthScheme (s : String) : String :=
  if "Bearer ".data.isPrefixOf s.data then String.mk (s.data.drop 7)
  else if "x-api-key ".data.isPrefixOf s.data then String.mk (s.data.drop 10)
  else s

/-- How `proxy_instance.rs::handle_request_inner` disposes of a
request: structured configuration-missing body, 401, a `dc-local://`
tool-internal response, the terminal loop response, or an upstream
network call. -/
inductive InstanceOutcome where
  | configurationMissing
  | unauthorized
  | localResponse
  | proxyLoopDetected
  | upstream (target_url : String)
  deriving Repr, DecidableEq

/-- The header read of `proxy_instance.rs::handle_request_inner`:
`authorization`, falling back to `x-api-key`, falling back to the
empty string. -/
def header_api_key (h : RequestHeaders) : String :=
  match h.authorization with
  | some a => a
  | none =>
    match h.x_api_key with
    | some x => x
    | none => ""

/-- `proxy_instance.rs::handle_request_inner`, up to dispatch: check
upstream credentials are configured, gate on `local_api_key` (skipped
when unset), let the processor build the outbound request
(`processed_target_url` stands for `processed.target_url`), answer
`dc-local://` requests locally, run the loop guard, and only then call
upstream. -/
def handle_request_inner (cfg : ToolProxyConfig) (h : RequestHeaders)
    (processed_target_url : String) (own_port : Nat) : InstanceOutcome :=
  if cfg.real_api_key = none ∨ cfg.real_base_url = none then .configurationMissing
  else
    let provided_key := stripAuthScheme (header_api_key h)
    let auth_failed :=
      match cfg.local_api_key with
      | some local_key => provided_key != local_key
      | none => false
    if auth_failed then .unauthorized
    else if "dc-local://".data.isPrefixOf processed_target_url.data then .localResponse
    else if is_proxy_loop processed_target_url own_port then .proxyLoopDetected
    else .upstream processed_target_url

/-! ## AMP protocol router —
`src-tauri/src/services/proxy/headers/amp_processor.rs`

`detect_api_type` inspects the path, the header map and the JSON body.
The `serde_json` layer is abstracted away: `body_model` stands for the
body's `model` string field (`None` when the body is empty, is not
JSON, or has no string `model` field), and `headers` for the set of
(lowercase) header names present. -/

/-- `ApiType` (amp_processor.rs). -/
inductive ApiType where
  | ampInternal
  | claude
  | codex
  | gemini
  deriving Repr, DecidableEq

/-- `AmpHeadersProcessor::detect_by_model`: lowercase the body's
`model` field and match family name fragments by substring. -/
def detect_by_model (body_model : Option String) : Option ApiType :=
  match body_model with
  | none => none
  | some m =>
    let ml := asciiLower m.data
    if hasSubstring ml "gemini".data then some .gemini
    else if hasSubstring ml "claude".data then some .claude
    else if hasSubstring ml "gpt".data then some .codex
    else none

/-- `AmpHeadersProcessor::detect_api_type`: explicit
`/api/provider/<family>` prefixes win; other `/api/` paths go to the
AMP backing service; then known endpoint path shapes; then the
`anthropic-version` header; then the body's `model` substring; default
Claude. -/
def detect_api_type (path : String) (headers : List String)
    (body_model : Option String) : ApiType :=
  let pl := asciiLower path.data
  if "/api/provider/anthropic".data.isPrefixOf pl then .claude
  else if "/api/provider/openai".data.isPrefixOf pl then .codex
  else if "/api/provider/google".data.isPrefixOf pl then .gemini
  else if "/api/".data.isPrefixOf pl then .ampInternal
  else if hasSubstring pl "/messages".data && !hasSubstring pl "/chat/completions".data then
    .claude
  else if hasSubstring pl "/chat/completions".data || hasSubstring pl "/responses".data
      || "/completions".data.isSuffixOf pl then
    .codex
  else if hasSubstring pl "/v1beta".data || hasSubstring pl ":generatecontent".data
      || hasSubstring pl ":streamgeneratecontent".data then
    .gemini
  else if headers.contains "anthropic-version" then .claude
  else
    match detect_by_model body_model with
    | some t => t
    | none => .claude

/-! ## Trend analytics — `src-tauri/src/services/token_stats/analytics.rs`

The SQL aggregation feeding `query_trends` is an external collaborator;
its result rows (`db_trends`) are the input of the embedded tail of
`query_trends` and of `fill_missing_time_points`. -/

/-- `TrendDataPoint` (analytics.rs). -/
structure TrendDataPoint where
  timestamp : Int
  input_tokens : Int
  output_tokens : Int
  cache_creation_tokens : Int
  cache_read_tokens : Int
  total_cost : ℚ
  input_price : ℚ
  output_price : ℚ
  cache_write_price : ℚ
  cache_read_price : ℚ
  request_count : Int
  error_count : Int
  avg_response_time : Option ℚ
  deriving Repr, DecidableEq

/-- `TimeGranularity` (token_stats query model). -/
inductive TimeGranularity where
  | fifteenMinutes
  | thirtyMinutes
  | hour
  | twelveHours
  | day
  deriving Repr, DecidableEq

/-- The bucket width in milliseconds chosen by
`fill_missing_time_points`. -/
def interval_ms : TimeGranularity → Int
  | .fifteenMinutes => 15 * 60 * 1000
  | .thirtyMinutes => 30 * 60 * 1000
  | .hour => 60 * 60 * 1000
  | .twelveHours => 12 * 60 * 60 * 1000
  | .day => 24 * 60 * 60 * 1000

/-- The zero-valued point synthesized for a bucket with no matching
records. -/
def zero_point (t : Int) : TrendDataPoint :=
  { timestamp := t
    input_tokens := 0
    output_tokens := 0
    cache_creation_tokens := 0
    cache_read_tokens := 0
    total_cost := 0
    input_price := 0
    output_price := 0
    cache_write_price := 0
    cache_read_price := 0
    request_count := 0
    error_count := 0
    avg_response_time := none }

/-- The `HashMap<i64, TrendDataPoint>` keyed by timestamp that
`fill_missing_time_points` builds from the query rows (later rows with
the same timestamp overwrite earlier ones, as `HashMap::insert`
does). -/
def data_map_of (db_trends : List TrendDataPoint) : Int → Option TrendDataPoint :=
  db_trends.foldl
    (fun m p => fun t => if t = p.timestamp then some p else m t)
    (fun _ => none)

/-- The generation loop of `fill_missing_time_points`: starting from
the granularity-aligned first bucket, emit one point per bucket up to
and including `end_time`, taking the aggregated row when the map has
one and the zero point otherwise. -/
def fill_loop (dm : Int → Option TrendDataPoint) (g : TimeGranularity)
    (end_time current : Int) : List TrendDataPoint :=
  if h : current ≤ end_time then
    (match dm current with
     | some existing => existing
     | none => zero_point current) ::
      fill_loop dm g end_time (current + interval_ms g)
  else []
termination_by (end_time + 1 - current).toNat
decreasing_by cases g <;> simp [interval_ms] at h ⊢ <;> omega

/-- `TokenStatsAnalytics::fill_missing_time_points`: round the start
down to the bucket boundary (Rust `i64` division truncates toward
zero, hence `Int.tdiv`) and run the generation loop. -/
def fill_missing_time_points (db_trends : List TrendDataPoint)
    (start_time end_time : Int) (g : TimeGranularity) : List TrendDataPoint :=
  let i := interval_ms g
  fill_loop (data_map_of db_trends) g end_time ((Int.tdiv start_time i) * i)

/-- The tail of `TokenStatsAnalytics::query_trends`: the aggregated
rows are returned as-is unless both ends of the time range were given,
in which case the gaps are filled. -/
def query_trends_post (db_trends : List TrendDataPoint)
    (start_time end_time : Option Int) (g : TimeGranularity) : List TrendDataPoint :=
  match start_time, end_time with
  | some s, some e => fill_missing_time_points db_trends s e g
  | _, _ => db_trends

/-! ## Theorems -/

/-- C3: merging a streamed response's events takes model, message id
and input tokens from the initial `message_start` event always, and
output/cache counts from the terminal `message_delta` event when one
was observed, falling back to the initial event otherwise; in
particular `input_tokens=9, output_tokens=1` merged with a terminal
`output_tokens=566` yields `output_tokens=566` and `input_tokens=9`,
and merging without a terminal event reproduces the initial event's
output and cache values. -/
theorem from_sse_data_merge :
    (∀ (start : MessageStartData) (d : MessageDeltaData),
        ResponseTokenInfo.from_sse_data start (some d) =
          { model := start.model
            message_id := start.message_id
            input_tokens := start.input_tokens
            output_tokens := d.output_tokens
            cache_creation_tokens := d.cache_creation_tokens
            cache_read_tokens := d.cache_read_tokens })
    ∧ (∀ start : MessageStartData,
        ResponseTokenInfo.from_sse_data start none =
          { model := start.model
            message_id := start.message_id
            input_tokens := start.input_tokens
            output_tokens := start.output_tokens
            cache_creation_tokens := start.cache_creation_tokens
            cache_read_tokens := start.cache_read_tokens })
    ∧ (ResponseTokenInfo.from_sse_data
          { model := "claude-sonnet-4", message_id := "msg_1", input_tokens := 9
            output_tokens := 1, cache_creation_tokens := 2, cache_read_tokens := 3 }
          (some { cache_creation_tokens := 7, cache_read_tokens := 8, output_tokens := 566 }) =
        { model := "claude-sonnet-4", message_id := "msg_1", input_tokens := 9
          output_tokens := 566, cache_creation_tokens := 7, cache_read_tokens := 8 }) := by
  exact ⟨fun _ _ => rfl, fun _ => rfl, rfl⟩

/-- C7: a streamed response whose collected chunks contain no
`message_start` event fails extraction with an error, whatever the
other chunks contain. -/
theorem parse_sse_chunks_requires_start
    (extract : String → Except String (Option SseTokenData)) (chunks : List String)
    (hno : ∀ c ∈ chunks, ∀ d, extract c = .ok (some d) → d.message_start = none) :
    parse_sse_chunks extract chunks = .error "Missing message_start in SSE stream" := by
  have key : ∀ (l : List String) (acc : Option MessageStartData × Option MessageDeltaData),
      (∀ c ∈ l, ∀ d, extract c = .ok (some d) → d.message_start = none) →
      acc.1 = none →
      (l.foldl
        (fun acc chunk =>
          match extract chunk with
          | .ok (some data) =>
            (match data.message_start with
             | some s => some s
             | none => acc.1,
             match data.message_delta with
             | some d => some d
             | none => acc.2)
          | _ => acc) acc).1 = none := by
    intro l
    induction l with
    | nil => intro acc _ hacc; simpa using hacc
    | cons c t ih =>
      intro acc hl hacc
      simp only [List.foldl_cons]
      apply ih _ (fun x hx => hl x (List.mem_cons_of_mem c hx))
      cases hec : extract c with
      | error e => simpa [hec] using hacc
      | ok od =>
        cases od with
        | none => simpa [hec] using hacc
        | some data =>
          have hms : data.message_start = none := hl c (List.mem_cons_self c t) data hec
          simp [hec, hms, hacc]
  unfold parse_sse_chunks
  simp only [key chunks (none, none) hno rfl]

/-- C7 witness: a ping-only stream has no `message_start` and fails. -/
theorem parse_sse_chunks_requires_start_witness :
    parse_sse_chunks (fun _ => .ok none) ["event: ping"] =
      .error "Missing message_start in SSE stream" :=
  parse_sse_chunks_requires_start (fun _ => .ok none) ["event: ping"]
    (by intro c _ d hd; cases hd)

/-- C10: when the instance's configuration carries upstream
credentials but no `local_api_key`, the auth gate is skipped — no
request is ever answered with 401, whatever authorization or
x-api-key header it presents; conversely a 401 is only possible when
`local_api_key` is set and the presented key differs from it. -/
theorem auth_gate_skipped_without_local_key (cfg : ToolProxyConfig)
    (h : RequestHeaders) (target_url : String) (own_port : Nat) :
    (cfg.real_api_key ≠ none → cfg.real_base_url ≠ none → cfg.local_api_key = none →
      handle_request_inner cfg h target_url own_port ≠ .unauthorized)
    ∧ (handle_request_inner cfg h target_url own_port = .unauthorized →
      ∃ local_key, cfg.local_api_key = some local_key ∧
        stripAuthScheme (header_api_key h) ≠ local_key) := by
  constructor
  · intro hk hb hnone
    unfold handle_request_inner
    simp [hk, hb, hnone]
    (split <;> try split) <;> simp
  · intro hq
    unfold handle_request_inner at hq
    by_cases hmiss : cfg.real_api_key = none ∨ cfg.real_base_url = none
    · simp [hmiss] at hq
    · simp only [hmiss, if_false] at hq
      cases hl : cfg.local_api_key with
      | none =>
        simp [hl] at hq
        revert hq; (split <;> try split) <;> simp
      | some k =>
        refine ⟨k, rfl, ?_⟩
        by_contra heq
        simp [hl, heq] at hq
        revert hq; (split <;> try split) <;> simp

/-- C10 witness: loopback config with upstream credentials and no
local key lets a request with an arbitrary bearer header through the
auth gate. -/
theorem auth_gate_skipped_without_local_key_witness :
    handle_request_inner
      { enabled := true, port := 8787, local_api_key := none
        real_api_key := some "sk-real", real_base_url := some "https://api.anthropic.com"
        real_profile_name := none, allow_public := false
        session_endpoint_config_enabled := false, auto_start := false
        original_active_profile := none, original_amp_settings := none
        original_amp_secrets := none, tavily_api_key := none }
      { authorization := some "Bearer wrong-key", x_api_key := none }
      "https://api.anthropic.com/v1/messages" 8787 ≠ .unauthorized :=
  (auth_gate_skipped_without_local_key _ _ _ _).1 (by simp) (by simp) rfl

/-- C5: a request whose constructed target URL starts with any of the
four scheme × loopback-alias combinations for the instance's own port
is answered with the terminal proxy-loop response and never reaches an
upstream network call — in the transparent proxy's handler and,
through the loop detector, in the proxy-instance handler. -/
theorem proxy_loop_guard (own_port : Nat) :
    (∀ target_url : String,
      (("http://127.0.0.1:" ++ toString own_port).data.isPrefixOf target_url.data = true
        ∨ ("https://127.0.0.1:" ++ toString own_port).data.isPrefixOf target_url.data = true
        ∨ ("http://localhost:" ++ toString own_port).data.isPrefixOf target_url.data = true
        ∨ ("https://localhost:" ++ toString own_port).data.isPrefixOf target_url.data = true) →
      transparent_loop_check target_url own_port = true
        ∧ is_proxy_loop target_url own_port = true)
    ∧ (∀ base_url path query : String,
      transparent_loop_check (transparent_target_url base_url path query) own_port = true →
      transparent_dispatch base_url path query own_port = .proxyLoopDetected
        ∧ ∀ u, transparent_dispatch base_url path query own_port ≠ .upstream u)
    ∧ (∀ (cfg : ToolProxyConfig) (h : RequestHeaders) (target_url : String),
      cfg.real_api_key ≠ none → cfg.real_base_url ≠ none →
      (cfg.local_api_key = none
        ∨ cfg.local_api_key = some (stripAuthScheme (header_api_key h))) →
      "dc-local://".data.isPrefixOf target_url.data = false →
      is_proxy_loop target_url own_port = true →
      handle_request_inner cfg h target_url own_port = .proxyLoopDetected
        ∧ ∀ u, handle_request_inner cfg h target_url own_port ≠ .upstream u) := by
  refine ⟨?_, ?_, ?_⟩
  · intro target_url hp
    constructor
    · unfold transparent_loop_check
      simp only [Bool.or_eq_true]
      tauto
    · unfold is_proxy_loop
      simp only [Bool.or_eq_true]
      tauto
  · intro base_url path query hloop
    unfold transparent_dispatch
    simp [hloop]
  · intro cfg h target_url hk hb hauth hlocal hloop
    have hmain : handle_request_inner cfg h target_url own_port = .proxyLoopDetected := by
      unfold handle_request_inner
      have hfail :
          (match cfg.local_api_key with
            | some local_key => stripAuthScheme (header_api_key h) != local_key
            | none => false) = false := by
        rcases hauth with hnone | hsome
        · simp [hnone]
        · simp [hsome]
      simp [hk, hb, hfail, hlocal, hloop]
    exact ⟨hmain, fun u => by simp [hmain]⟩

/-- C5 witness: with own port 8787, the URL
`http://127.0.0.1:8787/v1/messages` is rejected as a loop by the
transparent proxy before any network call. -/
theorem proxy_loop_guard_witness :
    transparent_dispatch "http://127.0.0.1:8787" "/v1/messages" "" 8787 =
      .proxyLoopDetected :=
  ((proxy_loop_guard 8787).2.1 "http://127.0.0.1:8787" "/v1/messages" ""
    (((proxy_loop_guard 8787).1 (transparent_target_url "http://127.0.0.1:8787" "/v1/messages" "")
      (Or.inl (by decide))).1)).1

/-- Transitivity helper for the router proof: a list that extends a
pattern that is not a prefix of `l3` is itself not a prefix of
`l3`. -/
lemma isPrefixOf_false_mono {l1 l2 l3 : List Char} (h12 : l1 <+: l2)
    (hf : l1.isPrefixOf l3 = false) : l2.isPrefixOf l3 = false := by
  cases hb : l2.isPrefixOf l3
  · rfl
  · exfalso
    have h23 : l2 <+: l3 := by simpa [ List.isPrefixOf_iff_prefix] using hb
    have h13 : l1 <+: l3 := h12.trans h23
    have htrue : l1.isPrefixOf l3 = true := List.isPrefixOf_iff_prefix.mpr h13
    rw [hf] at htrue
    cases htrue

/-- C9: the AMP router classifies an inbound request in fixed order —
an explicit `/api/provider/<family>` path prefix wins outright; other
`/api/` paths go to the AMP backing service; then known endpoint path
shapes; then the `anthropic-version` header; then the JSON body's
`model` field matched by substring (gemini, claude, gpt); and Claude
is the default when nothing matches. -/
theorem amp_detect_api_type_order (path : String) (headers : List String)
    (body_model : Option String) :
    ("/api/provider/anthropic".data.isPrefixOf (asciiLower path.data) = true →
      detect_api_type path headers body_model = .claude)
    ∧ ("/api/provider/anthropic".data.isPrefixOf (asciiLower path.data) = false →
       "/api/provider/openai".data.isPrefixOf (asciiLower path.data) = true →
      detect_api_type path headers body_model = .codex)
    ∧ ("/api/provider/anthropic".data.isPrefixOf (asciiLower path.data) = false →
       "/api/provider/openai".data.isPrefixOf (asciiLower path.data) = false →
       "/api/provider/google".data.isPrefixOf (asciiLower path.data) = true →
      detect_api_type path headers body_model = .gemini)
    ∧ ("/api/provider/anthropic".data.isPrefixOf (asciiLower path.data) = false →
       "/api/provider/openai".data.isPrefixOf (asciiLower path.data) = false →
       "/api/provider/google".data.isPrefixOf (asciiLower path.data) = false →
       "/api/".data.isPrefixOf (asciiLower path.data) = true →
      detect_api_type path headers body_model = .ampInternal)
    ∧ ("/api/".data.isPrefixOf (asciiLower path.data) = false →
       hasSubstring (asciiLower path.data) "/messages".data = true →
       hasSubstring (asciiLower path.data) "/chat/completions".data = false →
      detect_api_type path headers body_model = .claude)
    ∧ ("/api/".data.isPrefixOf (asciiLower path.data) = false →
       (hasSubstring (asciiLower path.data) "/messages".data = false
         ∨ hasSubstring (asciiLower path.data) "/chat/completions".data = true) →
       (hasSubstring (asciiLower path.data) "/chat/completions".data = true
         ∨ hasSubstring (asciiLower path.data) "/responses".data = true
         ∨ "/completions".data.isSuffixOf (asciiLower path.data) = true) →
      detect_api_type path headers body_model = .codex)
    ∧ ("/api/".data.isPrefixOf (asciiLower path.data) = false →
       hasSubstring (asciiLower path.data) "/messages".data = false →
       hasSubstring (asciiLower path.data) "/chat/completions".data = false →
       hasSubstring (asciiLower path.data) "/responses".data = false →
       "/completions".data.isSuffixOf (asciiLower path.data) = false →
       (hasSubstring (asciiLower path.data) "/v1beta".data = true
         ∨ hasSubstring (asciiLower path.data) ":generatecontent".data = true
         ∨ hasSubstring (asciiLower path.data) ":streamgeneratecontent".data = true) →
      detect_api_type path headers body_model = .gemini)
    ∧ ("/api/".data.isPrefixOf (asciiLower path.data) = false →
       hasSubstring (asciiLower path.data) "/messages".data = false →
       hasSubstring (asciiLower path.data) "/chat/completions".data = false →
       hasSubstring (asciiLower path.data) "/responses".data = false →
       "/completions".data.isSuffixOf (asciiLower path.data) = false →
       hasSubstring (asciiLower path.data) "/v1beta".data = false →
       hasSubstring (asciiLower path.data) ":generatecontent".data = false →
       hasSubstring (asciiLower path.data) ":streamgeneratecontent".data = false →
       (headers.contains "anthropic-version" = true →
         detect_api_type path headers body_model = .claude)
       ∧ (headers.contains "anthropic-version" = false →
          (∀ t, detect_by_model body_model = some t →
            detect_api_type path headers body_model = t)
          ∧ (detect_by_model body_model = none →
            detect_api_type path headers body_model = .claude)))
    ∧ (∀ m : String,
        (hasSubstring (asciiLower m.data) "gemini".data = true →
          detect_by_model (some m) = some .gemini)
        ∧ (hasSubstring (asciiLower m.data) "gemini".data = false →
           hasSubstring (asciiLower m.data) "claude".data = true →
          detect_by_model (some m) = some .claude)
        ∧ (hasSubstring (asciiLower m.data) "gemini".data = false →
           hasSubstring (asciiLower m.data) "claude".data = false →
           hasSubstring (asciiLower m.data) "gpt".data = true →
          detect_by_model (some m) = some .codex)
        ∧ (hasSubstring (asciiLower m.data) "gemini".data = false →
           hasSubstring (asciiLower m.data) "claude".data = false →
           hasSubstring (asciiLower m.data) "gpt".data = false →
          detect_by_model (some m) = none))
    ∧ detect_by_model none = none := by
  have providers_false :
      "/api/".data.isPrefixOf (asciiLower path.data) = false →
      "/api/provider/anthropic".data.isPrefixOf (asciiLower path.data) = false
      ∧ "/api/provider/openai".data.isPrefixOf (asciiLower path.data) = false
      ∧ "/api/provider/google".data.isPrefixOf (asciiLower path.data) = false := by
    intro h4
    exact ⟨isPrefixOf_false_mono (by decide) h4,
      isPrefixOf_false_mono (by decide) h4,
      isPrefixOf_false_mono (by decide) h4⟩
  refine ⟨?_, ?_, ?_, ?_, ?_, ?_, ?_, ?_, ?_, rfl⟩
  · intro h1
    unfold detect_api_type
    simp [h1]
  · intro h1 h2
    unfold detect_api_type
    simp [h1, h2]
  · intro h1 h2 h3
    unfold detect_api_type
    simp [h1, h2, h3]
  · intro h1 h2 h3 h4
    unfold detect_api_type
    simp [h1, h2, h3, h4]
  · intro h4 h5 h6
    obtain ⟨h1, h2, h3⟩ := providers_false h4
    unfold detect_api_type
    simp [h1, h2, h3, h4, h5, h6]
  · intro h4 h5 h6
    obtain ⟨h1, h2, h3⟩ := providers_false h4
    unfold detect_api_type
    rcases h5 with h5 | h5 <;> rcases h6 with h6 | h6 | h6 <;>
      simp [h1, h2, h3, h4, h5, h6]
  · intro h4 h5 h6 h7 h8 h9
    obtain ⟨h1, h2, h3⟩ := providers_false h4
    unfold detect_api_type
    rcases h9 with h9 | h9 | h9 <;>
      simp [h1, h2, h3, h4, h5, h6, h7, h8, h9]
  · intro h4 h5 h6 h7 h8 h9 h10 h11
    obtain ⟨h1, h2, h3⟩ := providers_false h4
    constructor
    · intro hh
      have hhm : "anthropic-version" ∈ headers := by simpa using hh
      unfold detect_api_type
      simp [h1, h2, h3, h4, h5, h6, h7, h8, h9, h10, h11, hhm]
    · intro hh
      have hhm : "anthropic-version" ∉ headers := by simpa using hh
      constructor
      · intro t hdm
        unfold detect_api_type
        simp [h1, h2, h3, h4, h5, h6, h7, h8, h9, h10, h11, hhm, hdm]
      · intro hdm
        unfold detect_api_type
        simp [h1, h2, h3, h4, h5, h6, h7, h8, h9, h10, h11, hhm, hdm]
  · intro m
    refine ⟨?_, ?_, ?_, ?_⟩ <;> intros <;> unfold detect_by_model <;> simp [*]

/-- C9 witness: an explicit `/api/provider/openai/v1/responses` path
classifies as the Codex family via the first-priority prefix rule. -/
theorem amp_detect_api_type_order_witness :
    detect_api_type "/api/provider/openai/v1/responses" ["anthropic-version"]
      (some "claude-3-opus") = .codex :=
  (amp_detect_api_type_order "/api/provider/openai/v1/responses" ["anthropic-version"]
    (some "claude-3-opus")).2.1 (by decide) (by decide)

/-- The price entry of the end-to-end pricing example: input $3/M,
output $15/M, cache-write $3.75/M, cache-read $0.3/M. -/
def price_x : ModelPrice :=
  { provider := "anthropic"
    input_price_per_1m := 3
    output_price_per_1m := 15
    cache_write_price_per_1m := some 3.75
    cache_read_price_per_1m := some 0.3
    currency := "USD"
    aliases := [] }

/-- The template of the end-to-end pricing example, holding model `x`
as a custom model. -/
def template_x : PricingTemplate :=
  { id := "tpl-x"
    inherited_models := []
    custom_models := [("x", price_x)] }

/-- A template store holding exactly the example template. -/
def store_x : TemplateStore :=
  fun id => if id = "tpl-x" then some template_x else none

/-- C1: whenever the template fetch and the model resolution succeed,
`calculate_cost` returns the breakdown whose every component is
`token_count × price_per_1M / 1,000,000`, with a missing cache price
read as zero, and whose total is the sum of the four components. -/
theorem calculate_cost_components (store : TemplateStore) (defaults : DefaultTemplates)
    (fuel : Nat) (template_id : Option String) (model : String)
    (tpl : PricingTemplate) (mp : ModelPrice)
    (input_tokens output_tokens cache_creation_tokens cache_read_tokens : Int)
    (htpl : (match template_id with
             | some id => get_template store id
             | none => get_default_template store defaults "claude-code") = .ok tpl)
    (hmp : resolve_model_price store fuel tpl model = .ok mp) :
    calculate_cost store defaults fuel template_id model input_tokens output_tokens
        cache_creation_tokens cache_read_tokens =
      .ok { input_price := input_tokens * mp.input_price_per_1m / 1000000
            output_price := output_tokens * mp.output_price_per_1m / 1000000
            cache_write_price :=
              cache_creation_tokens * (mp.cache_write_price_per_1m.getD 0) / 1000000
            cache_read_price :=
              cache_read_tokens * (mp.cache_read_price_per_1m.getD 0) / 1000000
            total_cost :=
              input_tokens * mp.input_price_per_1m / 1000000
                + output_tokens * mp.output_price_per_1m / 1000000
                + cache_creation_tokens * (mp.cache_write_price_per_1m.getD 0) / 1000000
                + cache_read_tokens * (mp.cache_read_price_per_1m.getD 0) / 1000000
            template_id := tpl.id } := by
  unfold calculate_cost
  rw [htpl]
  simp [hmp]

/-- C1 witness: the end-to-end example — 1000 input, 500 output, 100
cache-creation and 200 cache-read tokens against the `x` entry costs
exactly 0.010935. -/
theorem calculate_cost_components_witness :
    calculate_cost store_x (fun _ => none) 0 (some "tpl-x") "x" 1000 500 100 200 =
      .ok { input_price := 0.003
            output_price := 0.0075
            cache_write_price := 0.000375
            cache_read_price := 0.00006
            total_cost := 0.010935
            template_id := "tpl-x" } := by
  rw [calculate_cost_components store_x (fun _ => none) 0 (some "tpl-x") "x"
    template_x price_x 1000 500 100 200 rfl rfl]
  simp only [Except.ok.injEq, CostBreakdown.mk.injEq, price_x, template_x]
  norm_num

/-- C2: `resolve_model_price` resolves in the order (1) exact key in
`custom_models`, (2) alias match among custom models, (3) the
`inherited_models` walk, taking the first entry whose source template
resolves and whose model name equals the request or whose resolved
base price lists the request as an alias, scaling all four price
fields by the entry's multiplier; and with no match at any level it
errors naming both the model and the template. -/
theorem resolve_model_price_order (store : TemplateStore) (fuel : Nat)
    (tpl : PricingTemplate) (model : String) :
    (∀ p, lookupCustom tpl.custom_models model = some p →
      resolve_model_price store fuel tpl model = .ok p)
    ∧ (lookupCustom tpl.custom_models model = none →
       ∀ p, lookupAlias tpl.custom_models model = some p →
      resolve_model_price store fuel tpl model = .ok p)
    ∧ (lookupCustom tpl.custom_models model = none →
       lookupAlias tpl.custom_models model = none →
       ∀ p, tpl.inherited_models.findSome?
           (tryInherited store (fun t m => resolve_model_price store fuel t m) model) = some p →
      resolve_model_price store (fuel + 1) tpl model = .ok p)
    ∧ (∀ (inh : InheritedModel) (src : PricingTemplate) (base : ModelPrice),
       get_template store inh.source_template_id = .ok src →
       resolve_model_price store fuel src inh.model_name = .ok base →
       ((inh.model_name = model ∨ base.aliases.contains model = true) →
         tryInherited store (fun t m => resolve_model_price store fuel t m) model inh =
           some (scalePrice base inh.multiplier))
       ∧ (inh.model_name ≠ model → base.aliases.contains model = false →
         tryInherited store (fun t m => resolve_model_price store fuel t m) model inh = none))
    ∧ (∀ inh : InheritedModel,
       get_template store inh.source_template_id =
           .error ("Template " ++ inh.source_template_id ++ " not found") →
      tryInherited store (fun t m => resolve_model_price store fuel t m) model inh = none)
    ∧ (∀ (base : ModelPrice) (q : ℚ),
       (scalePrice base q).input_price_per_1m = base.input_price_per_1m * q
       ∧ (scalePrice base q).output_price_per_1m = base.output_price_per_1m * q
       ∧ (scalePrice base q).cache_write_price_per_1m =
           base.cache_write_price_per_1m.map (fun p => p * q)
       ∧ (scalePrice base q).cache_read_price_per_1m =
           base.cache_read_price_per_1m.map (fun p => p * q))
    ∧ (lookupCustom tpl.custom_models model = none →
       lookupAlias tpl.custom_models model = none →
       tpl.inherited_models.findSome?
           (tryInherited store (fun t m => resolve_model_price store fuel t m) model) = none →
      resolve_model_price store (fuel + 1) tpl model =
        .error ("Model " ++ model ++ " not found in template " ++ tpl.id)) := by
  refine ⟨?_, ?_, ?_, ?_, ?_, ?_, ?_⟩
  · intro p hp
    cases fuel <;> simp [resolve_model_price, hp]
  · intro hc p hp
    cases fuel <;> simp [resolve_model_price, hc, hp]
  · intro hc ha p hp
    simp [resolve_model_price, hc, ha, hp]
  · intro inh src base hsrc hbase
    constructor
    · intro hmatch
      unfold tryInherited
      rcases hmatch with hm | hm
      · rw [hm] at hbase
        simp [hsrc, hbase, hm]
      · have hm2 : model ∈ base.aliases := by simpa using hm
        simp [hsrc, hbase, hm2]
    · intro hm hal
      have hal2 : model ∉ base.aliases := by simpa using hal
      unfold tryInherited
      simp [hsrc, hbase, hm, hal2]
  · intro inh hsrc
    unfold tryInherited
    simp [hsrc]
  · intro base q
    exact ⟨rfl, rfl, rfl, rfl⟩
  · intro hc ha hf
    simp [resolve_model_price, hc, ha, hf]

/-- C2 witness: an exact `custom_models` key match resolves to that
entry. -/
theorem resolve_model_price_order_witness :
    resolve_model_price store_x 0 template_x "x" = .ok price_x :=
  (resolve_model_price_order store_x 0 template_x "x").1 price_x rfl

/-- C4: when the listener launch fails after the saga has already
switched the active profile, `start_tool_proxy_internal` restores the
previously active profile (same name) and the pre-start stored proxy
configuration before returning, and surfaces the original start
failure, not the rollback outcome. -/
theorem start_saga_rollback (env : StartEnv) (st : SagaState) (tool_id : String)
    (cfg : ToolProxyConfig) (p : String) (e : String)
    (htool : tool_id = "claude-code" ∨ tool_id = "codex" ∨ tool_id = "gemini-cli")
    (hcfg : st.configs tool_id = some cfg)
    (hprof : st.active_profile tool_id = some p)
    (hrun : env.is_running = false)
    (hen : cfg.enabled = true)
    (hlocal : cfg.local_api_key ≠ none)
    (hreal : cfg.real_api_key ≠ none)
    (hbase : cfg.real_base_url ≠ none)
    (hpe : st.profile_defined tool_id (proxy_profile_name tool_id) = true)
    (hlaunch : env.launch = .error e) :
    (start_tool_proxy_internal env st tool_id).1 = .error ("启动代理失败: " ++ e)
    ∧ (start_tool_proxy_internal env st tool_id).2.active_profile = st.active_profile
    ∧ (start_tool_proxy_internal env st tool_id).2.configs = st.configs
    ∧ (start_tool_proxy_internal env st tool_id).2.profile_defined = st.profile_defined := by
  have hamp : ¬ tool_id = "amp-code" := by
    rcases htool with h | h | h <;> subst h <;> simp
  have htry : try_start_proxy_internal env st tool_id =
      (.error ("启动代理失败: " ++ e),
       { st with
         configs := fun t => if t = tool_id then
             some { cfg with original_active_profile := st.active_profile tool_id }
           else st.configs t
         active_profile := fun t => if t = tool_id then
             some (proxy_profile_name tool_id)
           else st.active_profile t }) := by
    unfold try_start_proxy_internal
    rw [hcfg]
    simp only [hrun, hen, hlaunch, Bool.false_eq_true, if_false, Bool.not_true,
      Bool.true_eq_false]
    rw [if_neg hlocal, if_neg hamp, if_neg (by simp [hreal, hbase])]
    simp [htool, hpe]
  unfold start_tool_proxy_internal
  rw [hcfg, htry]
  simp only [hprof]
  refine ⟨by simp, ?_, ?_, by simp⟩
  · funext t
    by_cases ht : t = tool_id
    · subst ht; simp [hprof]
    · simp [ht]
  · funext t
    by_cases ht : t = tool_id
    · subst ht; simp [hcfg]
    · simp [ht]

/-- C4 witness: a claude-code start whose bind step fails rolls the
profile and the stored config back and reports the launch failure. -/
theorem start_saga_rollback_witness :
    (start_tool_proxy_internal
        { is_running := false, amp_selection_ok := false, amp_backup_settings := none
          amp_backup_secrets := none, amp_apply := .ok (), launch := .error "bind failed" }
        { active_profile := fun t => if t = "claude-code" then some "work" else none
          configs := fun t =>
            if t = "claude-code" then
              some { enabled := true, port := 8787, local_api_key := some "k"
                     real_api_key := some "sk", real_base_url := some "https://u"
                     real_profile_name := none, allow_public := false
                     session_endpoint_config_enabled := false, auto_start := false
                     original_active_profile := none, original_amp_settings := none
                     original_amp_secrets := none, tavily_api_key := none }
            else none
          profile_defined := fun _ _ => true }
        "claude-code").1 = .error ("启动代理失败: " ++ "bind failed")
    ∧ (start_tool_proxy_internal
        { is_running := false, amp_selection_ok := false, amp_backup_settings := none
          amp_backup_secrets := none, amp_apply := .ok (), launch := .error "bind failed" }
        { active_profile := fun t => if t = "claude-code" then some "work" else none
          configs := fun t =>
            if t = "claude-code" then
              some { enabled := true, port := 8787, local_api_key := some "k"
                     real_api_key := some "sk", real_base_url := some "https://u"
                     real_profile_name := none, allow_public := false
                     session_endpoint_config_enabled := false, auto_start := false
                     original_active_profile := none, original_amp_settings := none
                     original_amp_secrets := none, tavily_api_key := none }
            else none
          profile_defined := fun _ _ => true }
        "claude-code").2.active_profile "claude-code" = some "work" := by
  have h := start_saga_rollback
    { is_running := false, amp_selection_ok := false, amp_backup_settings := none
      amp_backup_secrets := none, amp_apply := .ok (), launch := .error "bind failed" }
    { active_profile := fun t => if t = "claude-code" then some "work" else none
      configs := fun t =>
        if t = "claude-code" then
          some { enabled := true, port := 8787, local_api_key := some "k"
                 real_api_key := some "sk", real_base_url := some "https://u"
                 real_profile_name := none, allow_public := false
                 session_endpoint_config_enabled := false, auto_start := false
                 original_active_profile := none, original_amp_settings := none
                 original_amp_secrets := none, tavily_api_key := none }
        else none
      profile_defined := fun _ _ => true }
    "claude-code" _ "work" "bind failed" (Or.inl rfl) rfl rfl rfl rfl
    (by simp) (by simp) (by simp) rfl rfl
  exact ⟨h.1, by rw [h.2.1]; rfl⟩

/-- The stored amp-code configuration of the C8 counterexample: no
original profile was ever recorded, but the two native AMP config
documents were backed up at start. -/
def amp_cfg_ce : ToolProxyConfig :=
  { enabled := true
    port := 8790
    local_api_key := some "k"
    real_api_key := none
    real_base_url := none
    real_profile_name := none
    allow_public := false
    session_endpoint_config_enabled := false
    auto_start := false
    original_active_profile := none
    original_amp_settings := some "settings-backup"
    original_amp_secrets := some "secrets-backup"
    tavily_api_key := none }

/-- The collaborator state of the C8 counterexample. -/
def amp_st_ce : SagaState :=
  { active_profile := fun _ => none
    configs := fun t => if t = "amp-code" then some amp_cfg_ce else none
    profile_defined := fun _ _ => false }

/-- The stop-effect outcomes of the C8 counterexample: both the stop
and the native-config restore succeed. -/
def amp_env_ce : StopEnv :=
  { stop_result := .ok (), amp_restore := .ok () }

/-- C8 counterexample: for the amp-code tool the claim's second arm
fails — the proxy was started with no prior active profile recorded,
yet a successful stop does not leave the tool's configuration
untouched: it rewrites the stored config, clearing the
`original_amp_settings`/`original_amp_secrets` backup fields (besides
restoring the native AMP config documents through the collaborator). -/
theorem stop_saga_restore_counterexample :
    amp_cfg_ce.original_active_profile = none
    ∧ amp_st_ce.configs "amp-code" = some amp_cfg_ce
    ∧ (stop_tool_proxy_internal amp_env_ce amp_st_ce "amp-code").1 =
        .ok ("✅ " ++ "amp-code" ++ " 透明代理已停止\n已完整还原 AMP Code 配置")
    ∧ (stop_tool_proxy_internal amp_env_ce amp_st_ce "amp-code").2.configs "amp-code" ≠
        amp_st_ce.configs "amp-code" := by
  refine ⟨rfl, rfl, rfl, ?_⟩
  decide

/-- C8 (amended): for every tool other than amp-code, stopping
re-activates the backed-up original profile and clears the backup
field when a backup is present, and performs no profile change and
leaves the stored configuration untouched when the proxy was started
with no prior active profile; for amp-code, stopping instead restores
the native AMP config documents from their stored backups and rewrites
the stored configuration with both backup fields cleared, leaving the
profile store untouched. -/
theorem stop_saga_restore_amended (env : StopEnv) (st : SagaState) (tool_id : String)
    (cfg : ToolProxyConfig)
    (hcfg : st.configs tool_id = some cfg)
    (hstop : env.stop_result = .ok ()) :
    (tool_id ≠ "amp-code" →
      (∀ name, cfg.original_active_profile = some name →
        (stop_tool_proxy_internal env st tool_id).1 =
            .ok ("✅ " ++ tool_id ++ " 透明代理已停止\n已还原到 Profile: " ++ name)
        ∧ (stop_tool_proxy_internal env st tool_id).2.active_profile tool_id = some name
        ∧ (stop_tool_proxy_internal env st tool_id).2.configs tool_id =
            some { cfg with original_active_profile := none }
        ∧ ∀ t, t ≠ tool_id →
            (stop_tool_proxy_internal env st tool_id).2.active_profile t =
              st.active_profile t
            ∧ (stop_tool_proxy_internal env st tool_id).2.configs t = st.configs t)
      ∧ (cfg.original_active_profile = none →
        stop_tool_proxy_internal env st tool_id =
          (.ok ("✅ " ++ tool_id ++ " 透明代理已停止"), st)))
    ∧ (tool_id = "amp-code" → env.amp_restore = .ok () →
      (stop_tool_proxy_internal env st tool_id).1 =
          .ok ("✅ " ++ tool_id ++ " 透明代理已停止\n已完整还原 AMP Code 配置")
      ∧ (stop_tool_proxy_internal env st tool_id).2.active_profile = st.active_profile
      ∧ (stop_tool_proxy_internal env st tool_id).2.configs tool_id =
          some { cfg with original_amp_settings := none, original_amp_secrets := none }
      ∧ ∀ t, t ≠ tool_id →
          (stop_tool_proxy_internal env st tool_id).2.configs t = st.configs t) := by
  constructor
  · intro htool
    constructor
    · intro name hname
      have hres : stop_tool_proxy_internal env st tool_id =
          (.ok ("✅ " ++ tool_id ++ " 透明代理已停止\n已还原到 Profile: " ++ name),
           { st with
             active_profile := fun t => if t = tool_id then some name else st.active_profile t
             configs := fun t => if t = tool_id then
                 some { cfg with original_active_profile := none }
               else st.configs t }) := by
        unfold stop_tool_proxy_internal
        simp only [hcfg, hstop]
        rw [if_neg htool, hname]
      rw [hres]
      refine ⟨rfl, by simp, by simp, ?_⟩
      intro t ht
      constructor <;> simp [ht]
    · intro hnone
      unfold stop_tool_proxy_internal
      simp only [hcfg, hstop]
      rw [if_neg htool, hnone]
  · intro htool hrestore
    subst htool
    have hres : stop_tool_proxy_internal env st "amp-code" =
        (.ok ("✅ " ++ "amp-code" ++ " 透明代理已停止\n已完整还原 AMP Code 配置"),
         { st with
           configs := fun t => if t = "amp-code" then
               some { cfg with original_amp_settings := none, original_amp_secrets := none }
             else st.configs t }) := by
      unfold stop_tool_proxy_internal
      simp only [hcfg, hstop, hrestore]
      rfl
    rw [hres]
    refine ⟨rfl, rfl, by simp, ?_⟩
    intro t ht
    simp [ht]

/-- C8 witness: stopping codex with no recorded original profile
returns the plain success message and leaves the state untouched. -/
theorem stop_saga_restore_amended_witness :
    stop_tool_proxy_internal
        { stop_result := .ok (), amp_restore := .ok () }
        { active_profile := fun _ => some "dc_proxy_codex"
          configs := fun t =>
            if t = "codex" then
              some { enabled := true, port := 8788, local_api_key := some "k"
                     real_api_key := some "sk", real_base_url := some "https://u"
                     real_profile_name := none, allow_public := false
                     session_endpoint_config_enabled := false, auto_start := false
                     original_active_profile := none, original_amp_settings := none
                     original_amp_secrets := none, tavily_api_key := none }
            else none
          profile_defined := fun _ _ => true }
        "codex" =
      (.ok ("✅ " ++ "codex" ++ " 透明代理已停止"),
       { active_profile := fun _ => some "dc_proxy_codex"
         configs := fun t =>
           if t = "codex" then
             some { enabled := true, port := 8788, local_api_key := some "k"
                    real_api_key := some "sk", real_base_url := some "https://u"
                    real_profile_name := none, allow_public := false
                    session_endpoint_config_enabled := false, auto_start := false
                    original_active_profile := none, original_amp_settings := none
                    original_amp_secrets := none, tavily_api_key := none }
           else none
         profile_defined := fun _ _ => true }) :=
  ((stop_saga_restore_amended
    { stop_result := .ok (), amp_restore := .ok () }
    { active_profile := fun _ => some "dc_proxy_codex"
      configs := fun t =>
        if t = "codex" then
          some { enabled := true, port := 8788, local_api_key := some "k"
                 real_api_key := some "sk", real_base_url := some "https://u"
                 real_profile_name := none, allow_public := false
                 session_endpoint_config_enabled := false, auto_start := false
                 original_active_profile := none, original_amp_settings := none
                 original_amp_secrets := none, tavily_api_key := none }
        else none
      profile_defined := fun _ _ => true }
    "codex" _ rfl rfl).1 (by decide)).2 rfl


/-- Every granularity's bucket width is positive. -/
lemma interval_ms_pos (g : TimeGranularity) : 0 < interval_ms g := by
  cases g <;> norm_num [interval_ms]

/-- A point stored in the timestamp map is keyed by its own
timestamp. -/
lemma data_map_of_timestamp (db : List TrendDataPoint) :
    ∀ t p, data_map_of db t = some p → p.timestamp = t := by
  have main : ∀ (l : List TrendDataPoint) (init : Int → Option TrendDataPoint),
      (∀ t p, init t = some p → p.timestamp = t) →
      ∀ t p,
        (l.foldl (fun m q => fun t => if t = q.timestamp then some q else m t) init) t = some p →
        p.timestamp = t := by
    intro l
    induction l with
    | nil => intro init hinit; simpa using hinit
    | cons q rest ih =>
      intro init hinit t p hp
      refine ih _ ?_ t p hp
      intro t2 p2 hp2
      have hp3 : (if t2 = q.timestamp then some q else init t2) = some p2 := hp2
      by_cases ht : t2 = q.timestamp
      · rw [if_pos ht] at hp3
        cases hp3
        exact ht.symm
      · rw [if_neg ht] at hp3
        exact hinit _ _ hp3
  intro t p hp
  exact main db (fun _ => none) (by intro t2 p2 h2; cases h2) t p hp

/-- A timestamp carried by no aggregated row is absent from the
timestamp map. -/
lemma data_map_of_eq_none (db : List TrendDataPoint) (t : Int)
    (h : ∀ q ∈ db, q.timestamp ≠ t) : data_map_of db t = none := by
  have main : ∀ (l : List TrendDataPoint) (init : Int → Option TrendDataPoint),
      (∀ q ∈ l, q.timestamp ≠ t) → init t = none →
      (l.foldl (fun m q => fun t => if t = q.timestamp then some q else m t) init) t = none := by
    intro l
    induction l with
    | nil => intro init _ hinit; simpa using hinit
    | cons q rest ih =>
      intro init hl hinit
      refine ih _ (fun x hx => hl x (List.mem_cons_of_mem q hx)) ?_
      show (if t = q.timestamp then some q else init t) = none
      rw [if_neg ?_]
      · exact hinit
      · intro ht
        exact hl q (List.mem_cons_self q rest) (ht ▸ rfl)
  exact main db (fun _ => none) h rfl

/-- The point the generation loop emits for bucket `c` carries
timestamp `c`. -/
lemma fill_head_timestamp (dm : Int → Option TrendDataPoint)
    (hdm : ∀ t q, dm t = some q → q.timestamp = t) (c : Int) :
    (match dm c with
     | some q => q
     | none => zero_point c).timestamp = c := by
  cases hdmc : dm c with
  | some q => simp only [hdmc]; exact hdm c q hdmc
  | none => simp only [hdmc]; rfl

/-- Every point the generation loop emits sits on the bucket grid, is
at most `end_time`, and equals the mapped row for its timestamp when
one exists and the zero point otherwise. -/
lemma fill_loop_spec (dm : Int → Option TrendDataPoint) (g : TimeGranularity)
    (hdm : ∀ t q, dm t = some q → q.timestamp = t) (end_time : Int) :
    ∀ current, ∀ p ∈ fill_loop dm g end_time current,
      (∃ k : Nat, p.timestamp = current + interval_ms g * k)
      ∧ p.timestamp ≤ end_time
      ∧ p = (match dm p.timestamp with
             | some q => q
             | none => zero_point p.timestamp) := by
  have hi : 0 < interval_ms g := interval_ms_pos g
  have main : ∀ (n : Nat) (current : Int), (end_time + 1 - current).toNat ≤ n →
      ∀ p ∈ fill_loop dm g end_time current,
        (∃ k : Nat, p.timestamp = current + interval_ms g * k)
        ∧ p.timestamp ≤ end_time
        ∧ p = (match dm p.timestamp with
               | some q => q
               | none => zero_point p.timestamp) := by
    intro n
    induction n with
    | zero =>
      intro current hn p hp
      rw [fill_loop, dif_neg (by omega)] at hp
      cases hp
    | succ n ih =>
      intro current hn p hp
      rw [fill_loop] at hp
      by_cases hle : current ≤ end_time
      · rw [dif_pos hle] at hp
        rcases List.mem_cons.mp hp with heq | htail
        · have hts : p.timestamp = current := by
            rw [heq]; exact fill_head_timestamp dm hdm current
          refine ⟨⟨0, by simp [hts]⟩, hts ▸ hle, ?_⟩
          rw [hts]
          exact heq
        · have hrec := ih (current + interval_ms g) (by omega) p htail
          obtain ⟨⟨k, hk⟩, hle2, heq2⟩ := hrec
          refine ⟨⟨k + 1, ?_⟩, hle2, heq2⟩
          rw [hk]
          push_cast
          ring
      · rw [dif_neg hle] at hp
        cases hp
  intro current p hp
  exact main (end_time + 1 - current).toNat current le_rfl p hp

/-- Conversely, every grid bucket at most `end_time` gets a point from
the generation loop. -/
lemma fill_loop_mem (dm : Int → Option TrendDataPoint) (g : TimeGranularity)
    (hdm : ∀ t q, dm t = some q → q.timestamp = t) (end_time : Int) :
    ∀ (k : Nat) (current : Int), current + interval_ms g * k ≤ end_time →
      ∃ p ∈ fill_loop dm g end_time current,
        p.timestamp = current + interval_ms g * k := by
  have hi : 0 < interval_ms g := interval_ms_pos g
  intro k
  induction k with
  | zero =>
    intro current hc
    have hle : current ≤ end_time := by simpa using hc
    refine ⟨(match dm current with
             | some q => q
             | none => zero_point current), ?_, ?_⟩
    · rw [fill_loop, dif_pos hle]
      exact List.mem_cons_self _ _
    · rw [fill_head_timestamp dm hdm current]
      simp
  | succ k ih =>
    intro current hc
    have hc2 : current + interval_ms g + interval_ms g * (k : Int) ≤ end_time := by
      have harith : current + interval_ms g + interval_ms g * (k : Int) =
          current + interval_ms g * ((k : Int) + 1) := by ring
      rw [harith]
      push_cast at hc
      exact hc
    have hle : current ≤ end_time := by
      have h0 : 0 ≤ interval_ms g * (k : Int) := by positivity
      omega
    obtain ⟨p, hp, hts⟩ := ih (current + interval_ms g) (by push_cast; exact hc2)
    refine ⟨p, ?_, ?_⟩
    · rw [fill_loop, dif_pos hle]
      exact List.mem_cons_of_mem _ hp
    · rw [hts]
      push_cast
      ring

/-- The generation loop's timestamps are strictly increasing. -/
lemma fill_loop_pairwise (dm : Int → Option TrendDataPoint) (g : TimeGranularity)
    (hdm : ∀ t q, dm t = some q → q.timestamp = t) (end_time : Int) :
    ∀ current, (fill_loop dm g end_time current).Pairwise
      (fun a b => a.timestamp < b.timestamp) := by
  have hi : 0 < interval_ms g := interval_ms_pos g
  have main : ∀ (n : Nat) (current : Int), (end_time + 1 - current).toNat ≤ n →
      (fill_loop dm g end_time current).Pairwise
        (fun a b => a.timestamp < b.timestamp) := by
    intro n
    induction n with
    | zero =>
      intro current hn
      rw [fill_loop, dif_neg (by omega)]
      exact List.Pairwise.nil
    | succ n ih =>
      intro current hn
      rw [fill_loop]
      by_cases hle : current ≤ end_time
      · rw [dif_pos hle]
        refine List.Pairwise.cons ?_ (ih (current + interval_ms g) (by omega))
        intro b hb
        obtain ⟨⟨k, hk⟩, _, _⟩ :=
          fill_loop_spec dm g hdm end_time (current + interval_ms g) b hb
        rw [fill_head_timestamp dm hdm current, hk]
        have h0 : 0 ≤ interval_ms g * (k : Int) := by positivity
        omega
      · rw [dif_neg hle]
        exact List.Pairwise.nil
  intro current
  exact main (end_time + 1 - current).toNat current le_rfl

/-- C6: a trend query with both ends of the range set and granularity
Hour returns exactly one point per hour bucket from the start time
rounded down to the bucket boundary through the end time, and every
bucket with no matching aggregated row is a point whose token counts,
costs, request count and error count are all zero. -/
theorem trend_fill_hour_buckets (db : List TrendDataPoint) (s e : Int) :
    (∀ t : Int,
      (∃ p ∈ query_trends_post db (some s) (some e) .hour, p.timestamp = t)
        ↔ ∃ k : Nat, t = (Int.tdiv s 3600000) * 3600000 + 3600000 * k ∧ t ≤ e)
    ∧ ((query_trends_post db (some s) (some e) .hour).map
        (fun p => p.timestamp)).Nodup
    ∧ (∀ p ∈ query_trends_post db (some s) (some e) .hour,
        (∀ q ∈ db, q.timestamp ≠ p.timestamp) →
        p = zero_point p.timestamp
        ∧ p.input_tokens = 0 ∧ p.output_tokens = 0 ∧ p.cache_creation_tokens = 0
        ∧ p.cache_read_tokens = 0 ∧ p.total_cost = 0 ∧ p.input_price = 0
        ∧ p.output_price = 0 ∧ p.cache_write_price = 0 ∧ p.cache_read_price = 0
        ∧ p.request_count = 0 ∧ p.error_count = 0)
    ∧ (∀ p ∈ query_trends_post db (some s) (some e) .hour,
        ∀ q, data_map_of db p.timestamp = some q → p = q) := by
  have hdm := data_map_of_timestamp db
  have hint : interval_ms .hour = 3600000 := rfl
  have hq : query_trends_post db (some s) (some e) .hour =
      fill_loop (data_map_of db) .hour e ((Int.tdiv s 3600000) * 3600000) := rfl
  refine ⟨?_, ?_, ?_, ?_⟩
  · intro t
    constructor
    · rintro ⟨p, hp, rfl⟩
      rw [hq] at hp
      obtain ⟨⟨k, hk⟩, hle, _⟩ := fill_loop_spec (data_map_of db) .hour hdm e _ p hp
      exact ⟨k, by rw [hk, hint], hle⟩
    · rintro ⟨k, rfl, hle⟩
      rw [hq]
      obtain ⟨p, hp, hts⟩ := fill_loop_mem (data_map_of db) .hour hdm e k
        ((Int.tdiv s 3600000) * 3600000) (by rw [hint]; exact hle)
      exact ⟨p, hp, by rw [hts, hint]⟩
  · rw [hq]
    have hpw := fill_loop_pairwise (data_map_of db) .hour hdm e
      ((Int.tdiv s 3600000) * 3600000)
    exact (List.pairwise_map.mpr hpw).imp (fun hab => ne_of_lt hab)
  · intro p hp hnone
    rw [hq] at hp
    obtain ⟨_, _, heq⟩ := fill_loop_spec (data_map_of db) .hour hdm e _ p hp
    have hmapnone : data_map_of db p.timestamp = none :=
      data_map_of_eq_none db p.timestamp hnone
    rw [hmapnone] at heq
    refine ⟨heq, ?_⟩
    rw [heq]
    refine ⟨rfl, rfl, rfl, rfl, rfl, rfl, rfl, rfl, rfl, rfl, rfl⟩
  · intro p hp q hq2
    rw [hq] at hp
    obtain ⟨_, _, heq⟩ := fill_loop_spec (data_map_of db) .hour hdm e _ p hp
    rw [hq2] at heq
    exact heq

/-- C6 witness: an empty aggregation over one hour of range yields the
point for the second hour bucket as well. -/
theorem trend_fill_hour_buckets_witness :
    ∃ p ∈ query_trends_post [] (some 0) (some 3600000) .hour,
      p.timestamp = 3600000 :=
  ((trend_fill_hour_buckets [] 0 3600000).1 3600000).mpr
    ⟨1, by norm_num, by norm_num⟩

end DuckCoding
